import Mathlib

/-
Verification of the wstool CLI layer (src/src/wstool/wstool_cli.py) against
its natural-language specification.

The file shallowly embeds the two commands of WstoolCLI (cmd_init,
cmd_info) and the command-resolution step of wstool_main.  Filesystem and
network interaction is made explicit: each embedded operation returns the
ordered list of side effects it performs (directory creation, config
persistence, VCS queries, install/update dispatch, printed messages)
together with its outcome (an exit code, or a raised error as Except).
Collaborators that live in the rosinstall package rather than in this
repository (select_elements, get_versioned_path_spec, the alias table,
os.path.join) are modelled from the specification and carry a doc comment
saying so.
-/

set_option linter.unusedVariables false

namespace Wstool

/-- The record returned by get_versioned_path_spec for one config element:
the declared fields of a VersionedPathSpec (spec section 3) together with
the dynamic fields curr_uri and current_revision.  Every getter of the
Python class is a field here; a Python None is an Option.none. -/
structure PathSpec where
  local_name : Option String
  path : Option String
  scmtype : Option String
  uri : Option String
  version : Option String
  revision : Option String
  curr_uri : Option String
  current_revision : Option String
  deriving DecidableEq, Repr

/-- The valid attribute names of the --only option, in the order of
wstool_cli.py line 161. -/
def only_option_valid_attrs : List String :=
  ["path", "localname", "version", "revision", "cur_revision", "uri", "cur_uri", "scmtype"]

/-- The attribute names the source treats as requiring a VCS lookup
(wstool_cli.py line 227). -/
def dynamic_attrs : List String := ["cur_revision", "cur_uri", "revision"]

/-- Body of the inner projection loop of WstoolCLI.cmd_info (lines 233-249):
a chain of independent if statements, each appending the corresponding
field of the spec for the given attribute name, with a Python None rendered
as the empty string (the `x or ""` idiom). -/
def attrOutput (spec : PathSpec) (attr : String) : List String :=
  (if "localname" = attr then [spec.local_name.getD ""] else []) ++
  (if "path" = attr then [spec.path.getD ""] else []) ++
  (if "scmtype" = attr then [spec.scmtype.getD ""] else []) ++
  (if "uri" = attr then [spec.uri.getD ""] else []) ++
  (if "version" = attr then [spec.version.getD ""] else []) ++
  (if "revision" = attr then [spec.revision.getD ""] else []) ++
  (if "cur_uri" = attr then [spec.curr_uri.getD ""] else []) ++
  (if "cur_revision" = attr then [spec.current_revision.getD ""] else [])

/-- The output row the projection loop builds for one element: the values
appended for each requested attribute, in request order. -/
def projectionRow (spec : PathSpec) (only_options : List String) : List String :=
  only_options.flatMap (attrOutput spec)

/-- The spec field a valid --only attribute name refers to (none for an
invalid name).  Spec-side helper used to state that absent values are
rendered as the empty string. -/
def specField (spec : PathSpec) (attr : String) : Option String :=
  if attr = "localname" then spec.local_name
  else if attr = "path" then spec.path
  else if attr = "scmtype" then spec.scmtype
  else if attr = "uri" then spec.uri
  else if attr = "version" then spec.version
  else if attr = "revision" then spec.revision
  else if attr = "cur_uri" then spec.curr_uri
  else if attr = "cur_revision" then spec.current_revision
  else none

/-- Splitting a character list at commas, accumulator style: embedding of
the Python str.split(",") used on the value of --only. -/
def splitCommaAux : List Char → List Char → List String
  | [], acc => [String.mk acc.reverse]
  | c :: rest, acc =>
    if c = ',' then String.mk acc.reverse :: splitCommaAux rest []
    else splitCommaAux rest (c :: acc)

/-- Embedding of Python str.split(",") (wstool_cli.py line 219). -/
def splitComma (s : String) : List String := splitCommaAux s.data []

/-- The first requested attribute that is not a valid --only attribute, if
any: the projection validation loop of cmd_info calls parser.error at the
first such attribute (wstool_cli.py lines 224-226). -/
def firstInvalidAttr (only_options : List String) : Option String :=
  only_options.find? (fun a => !(only_option_valid_attrs.contains a))

/-- One config element as cmd_info sees it: its local name and the record
its get_versioned_path_spec returns. -/
structure ConfigElementInfo where
  local_name : String
  versionedPathSpec : PathSpec
  deriving DecidableEq, Repr

/-- Modelled from the spec: select_elements lives in rosinstall.common, not
in this repository.  Per spec section 4.1, it returns the elements matching
the given local names in the order requested, fails naming the missing
entry if a name is absent, and names = none returns all elements in stored
order. -/
def select_elements (elements : List ConfigElementInfo)
    (localnames : Option (List String)) : Except String (List ConfigElementInfo) :=
  match localnames with
  | none => Except.ok elements
  | some names =>
    names.mapM (fun n =>
      match elements.find? (fun e => e.local_name == n) with
      | some e => Except.ok e
      | none => Except.error n)

/-- Observable queries cmd_info performs against VCS backends. -/
inductive InfoEffect where
  | vcsQuery (localname : String)
  | snapshotQuery
  | fullInfoQuery
  deriving DecidableEq, Repr

/-- Errors cmd_info can raise: the parser.error on an invalid --only
attribute (carrying the attribute it names and the valid alternatives it
lists), or the lookup failure of select_elements. -/
inductive InfoErr where
  | invalidOnly (attr : String) (valids : List String)
  | lookupError (localname : String)
  deriving DecidableEq, Repr

/-- What cmd_info prints: the comma-joined projection lines, the yaml
snapshot, or the full info table/list. -/
inductive InfoOutput where
  | lines (ls : List String)
  | yamlDump
  | infoDisplay
  deriving DecidableEq, Repr

/-- Shallow embedding of WstoolCLI.cmd_info after the config has been
resolved (wstool_cli.py lines 215-274).  The branch structure mirrors the
source exactly: first `if args == []: args = None`, then an `elif
options.only:` running the projection (so the projection branch is reached
only when positional localnames were given), then `if options.yaml:`, then
the full display.  `lookup_required` is computed exactly as in the source,
where it is never subsequently read.  Calling get_versioned_path_spec is
modelled (from the spec, section 4.3: the dynamic fields cur_uri and
cur_revision are obtainable only by remote/VCS queries; the function lives
in rosinstall, not in this repository) as one VCS query per element; the
full display path queries the scms as the source comment on line 257
states.  An unset --only (Python False) and an empty string are both
falsy, collapsed here into the empty string. -/
def cmd_info_model (elements : List ConfigElementInfo) (argsPos : List String)
    (only : String) (yaml : Bool) : List InfoEffect × Except InfoErr InfoOutput :=
  if argsPos ≠ [] ∧ only ≠ "" then
    let only_options := splitComma only
    match firstInvalidAttr only_options with
    | some attr => ([], Except.error (InfoErr.invalidOnly attr only_option_valid_attrs))
    | none =>
      let lookup_required := only_options.any (fun a => dynamic_attrs.contains a)
      match select_elements elements (some argsPos) with
      | Except.error n => ([], Except.error (InfoErr.lookupError n))
      | Except.ok els =>
        (els.map (fun e => InfoEffect.vcsQuery e.local_name),
         Except.ok (InfoOutput.lines (els.map (fun e =>
           String.intercalate "," (projectionRow e.versionedPathSpec only_options)))))
  else if yaml then
    ([InfoEffect.snapshotQuery], Except.ok InfoOutput.yamlDump)
  else
    ([InfoEffect.fullInfoQuery], Except.ok InfoOutput.infoDisplay)

/-- A sample element for concrete evaluations: local name a, checked out at
/ws/a from uri1. -/
def specA : PathSpec :=
  { local_name := some "a", path := some "/ws/a", scmtype := some "git",
    uri := some "uri1", version := none, revision := none,
    curr_uri := some "uri1", current_revision := some "123" }

/-- The sample element bound to its versioned path spec. -/
def elemA : ConfigElementInfo := { local_name := "a", versionedPathSpec := specA }

/-- C3: refuted on the code as written.  Requesting only static attributes
(localname and path, neither of which is in dynamic_attrs) still performs a
VCS query per selected element: the source computes lookup_required but
never uses it and calls get_versioned_path_spec unconditionally. -/
theorem info_only_static_attrs_still_query :
    (splitComma "localname,path").all (fun a => !(dynamic_attrs.contains a)) = true ∧
    cmd_info_model [elemA] ["a"] "localname,path" false =
      ([InfoEffect.vcsQuery "a"], Except.ok (InfoOutput.lines ["a,/ws/a"])) := by
  exact ⟨rfl, rfl⟩

/-- C4: refuted on the code as written.  With a valid --only list but no
positional localnames, the elif after the args normalization skips the
projection entirely: the full info display runs (querying the scms) and no
comma-joined projection line is produced.  With a localname given, the
projection behaves as claimed. -/
theorem info_only_projection_skipped_without_localnames :
    (splitComma "localname,path").all (fun a => only_option_valid_attrs.contains a) = true ∧
    cmd_info_model [elemA] [] "localname,path" false =
      ([InfoEffect.fullInfoQuery], Except.ok InfoOutput.infoDisplay) ∧
    cmd_info_model [elemA] ["a"] "localname,uri" false =
      ([InfoEffect.vcsQuery "a"], Except.ok (InfoOutput.lines ["a,uri1"])) := by
  exact ⟨rfl, rfl, rfl⟩

/-- C8: refuted on the code as written.  An invalid --only attribute is
rejected with a usage error naming it and the valid alternatives only when
positional localnames are given; with no localnames the elif skips the
validation and the full info display runs instead. -/
theorem info_invalid_only_attr_not_rejected_without_localnames :
    only_option_valid_attrs.contains "bogus" = false ∧
    cmd_info_model [elemA] [] "bogus" false =
      ([InfoEffect.fullInfoQuery], Except.ok InfoOutput.infoDisplay) ∧
    cmd_info_model [elemA] ["a"] "bogus" false =
      ([], Except.error (InfoErr.invalidOnly "bogus" only_option_valid_attrs)) := by
  exact ⟨rfl, rfl, rfl⟩

/-- Observable side effects of WstoolCLI.cmd_init, in program order:
directory creation, printed messages, the config assembly (get_config),
the config persistence (config_generator, i.e. cmd_persist_config), and
the install/update dispatch with the robust flag and thread count actually
passed to multiproject_cmd.cmd_install_or_update. -/
inductive InitEffect where
  | mkdir (path : String)
  | printMsg (msg : String)
  | getConfig (basepath : String) (uris : List String)
  | writeConfig (basepath : String) (filename : String)
  | install (robust : Bool) (num_threads : Nat)
  deriving DecidableEq, Repr

/-- Errors cmd_init can raise: parser.error (a usage error, Python
SystemExit) and the MultiProjectException raised for a non-VCS element. -/
inductive InitError where
  | usageError (msg : String)
  | multiProjectException (msg : String)
  deriving DecidableEq, Repr

/-- One element of the config get_config assembles, as cmd_init inspects
it: its is_vcs_element flag and its printed description. -/
structure InitElement where
  is_vcs_element : Bool
  description : String
  deriving DecidableEq, Repr

/-- The environment cmd_init runs against: the filesystem predicates it
consults, the elements and base path of the config get_config returns, and
the boolean result of cmd_install_or_update. -/
structure InitEnv where
  isdir : String → Bool
  pathExists : String → Bool
  configElements : List InitElement
  configBasePath : String
  installSuccess : Bool
  configFilename : String

/-- The parsed options of cmd_init: --continue-on-error (dest robust) and
the parallelism option (dest jobs). -/
structure InitOptions where
  robust : Bool
  jobs : Nat
  deriving DecidableEq, Repr

/-- Modelled from the spec/stdlib: the two-argument os.path.join uses of
cmd_init, as concatenation with a path separator. -/
def pathJoin (a b : String) : String := a ++ "/" ++ b

/-- Target path selection of cmd_init (lines 106-109): the first positional
argument, or the current directory. -/
def init_target_path (args : List String) : String :=
  match args with
  | [] => "."
  | a :: _ => a

/-- The directory-preparation step of cmd_init (lines 111-115): if the
target is not a directory it is created when absent, and an error is merely
printed (without aborting) when a non-directory of that name exists. -/
def init_pre_effects (env : InitEnv) (target_path : String) : List InitEffect :=
  if env.isdir target_path = false then
    if env.pathExists target_path = false then [InitEffect.mkdir target_path]
    else [InitEffect.printMsg ("Error: Cannot create in target path " ++ target_path ++ " ")]
  else []

/-- The message printed when a workspace config file already exists at the
target (line 118). -/
def initExistsMsg (env : InitEnv) (target_path : String) : String :=
  "Error: There already is a workspace config file " ++ env.configFilename ++
    " at \"" ++ target_path ++ "\". Use wstool install/modify."

/-- The config uris passed to get_config: the second positional argument
when exactly two were given (lines 123-127). -/
def init_config_uris (args : List String) : List String :=
  if args.length = 2 then [args.getD 1 ""] else []

/-- The message of the MultiProjectException raised for an element without
vcs information (line 139). -/
def initNonVcsMsg (el : InitElement) : String :=
  "wstool does not allow elements without vcs information. " ++ el.description

/-- The warning printed when the install pass reported errors
(line 153). -/
def initWarnMsg : String :=
  "Warning: installation encountered errors, but --continue-on-error was requested.  Look above for warnings."

/-- Effects of cmd_init from the start through the config assembly (lines
111-139): directory preparation, the source announcement for a seed uri,
the get_config call, and the warning when a seed uri contributed no
element. -/
def init_mid_effects (env : InitEnv) (target_path : String) (args : List String) : List InitEffect :=
  init_pre_effects env target_path
  ++ (if args.length = 2 then
        [InitEffect.printMsg ("Using initial elements from: " ++ args.getD 1 "")] else [])
  ++ [InitEffect.getConfig target_path (init_config_uris args)]
  ++ (if init_config_uris args ≠ [] ∧ env.configElements = [] then
        [InitEffect.printMsg ("WARNING: Not using any element from " ++ (init_config_uris args).getD 0 "")]
      else [])

/-- Effects of cmd_init after the non-VCS validation passed (lines
143-154): the Writing announcement, the config persistence, the install
pass — dispatched with robust hardcoded to false (line 149), independent of
the --continue-on-error option — the conditional warning, and the final
update-complete message. -/
def init_final_effects (env : InitEnv) (opts : InitOptions) : List InitEffect :=
  [InitEffect.printMsg ("Writing " ++ pathJoin env.configBasePath env.configFilename),
   InitEffect.writeConfig env.configBasePath env.configFilename,
   InitEffect.install false opts.jobs]
  ++ (if env.installSuccess = false then [InitEffect.printMsg initWarnMsg] else [])
  ++ [InitEffect.printMsg "\nupdate complete."]

/-- Shallow embedding of WstoolCLI.cmd_init (wstool_cli.py lines 79-155),
with the branch structure of the source: directory preparation, the early
return 1 when a config file already exists at the target, the usage error
on more than two positional arguments, the config assembly, the
MultiProjectException on the first element without vcs information, and
otherwise persistence followed by the install pass and return 0. -/
def cmd_init (env : InitEnv) (opts : InitOptions) (args : List String) :
    List InitEffect × Except InitError Nat :=
  if env.pathExists (pathJoin (init_target_path args) env.configFilename) = true then
    (init_pre_effects env (init_target_path args)
       ++ [InitEffect.printMsg (initExistsMsg env (init_target_path args))],
     Except.ok 1)
  else if args.length > 2 then
    (init_pre_effects env (init_target_path args),
     Except.error (InitError.usageError "Too many arguments"))
  else
    match env.configElements.find? (fun e => !e.is_vcs_element) with
    | some el =>
      (init_mid_effects env (init_target_path args) args,
       Except.error (InitError.multiProjectException (initNonVcsMsg el)))
    | none =>
      (init_mid_effects env (init_target_path args) args ++ init_final_effects env opts,
       Except.ok 0)

/-- Every effect of the directory-preparation step is a mkdir or a printed
message. -/
lemma init_pre_effects_cases (env : InitEnv) (t : String) (x : InitEffect)
    (hx : x ∈ init_pre_effects env t) :
    (∃ p, x = InitEffect.mkdir p) ∨ (∃ m, x = InitEffect.printMsg m) := by
  unfold init_pre_effects at hx
  split at hx
  · split at hx
    · simp at hx
      exact Or.inl ⟨t, hx⟩
    · simp at hx
      exact Or.inr ⟨_, hx⟩
  · simp at hx

/-- Every effect up to and including the config assembly is a mkdir, a
printed message, or the get_config call itself. -/
lemma init_mid_effects_cases (env : InitEnv) (t : String) (args : List String)
    (x : InitEffect) (hx : x ∈ init_mid_effects env t args) :
    (∃ p, x = InitEffect.mkdir p) ∨ (∃ m, x = InitEffect.printMsg m) ∨
      x = InitEffect.getConfig t (init_config_uris args) := by
  unfold init_mid_effects at hx
  simp only [List.mem_append] at hx
  rcases hx with ((hpre | husing) | hget) | hwarn
  · rcases init_pre_effects_cases env t x hpre with h | h
    · exact Or.inl h
    · exact Or.inr (Or.inl h)
  · split at husing
    · simp at husing
      exact Or.inr (Or.inl ⟨_, husing⟩)
    · simp at husing
  · simp at hget
    exact Or.inr (Or.inr hget)
  · split at hwarn
    · simp at hwarn
      exact Or.inr (Or.inl ⟨_, hwarn⟩)
    · simp at hwarn

/-- Environment for evaluating cmd_init on a fresh target directory ws
with one VCS seed element and a succeeding install pass. -/
def initEnvA : InitEnv :=
  { isdir := fun _ => true, pathExists := fun _ => false,
    configElements := [{ is_vcs_element := true, description := "elem" }],
    configBasePath := "ws", installSuccess := true,
    configFilename := ".rosinstall" }

/-- C1: the code contradicts the claim (and its own option help text).
Invoking init with --continue-on-error set (robust = true) still dispatches
the install pass with robust = false: the parsed option is never passed to
cmd_install_or_update, which the source calls with robust=False (line
149). -/
theorem init_continue_on_error_flag_ignored :
    cmd_init initEnvA { robust := true, jobs := 1 } ["ws", "src"] =
      ([InitEffect.printMsg "Using initial elements from: src",
        InitEffect.getConfig "ws" ["src"],
        InitEffect.printMsg "Writing ws/.rosinstall",
        InitEffect.writeConfig "ws" ".rosinstall",
        InitEffect.install false 1,
        InitEffect.printMsg "\nupdate complete."],
       Except.ok 0) := by
  exact rfl

/-- Environment in which the install pass reports failure. -/
def initEnvB : InitEnv :=
  { isdir := fun _ => true, pathExists := fun _ => false,
    configElements := [{ is_vcs_element := true, description := "elem" }],
    configBasePath := ".", installSuccess := false,
    configFilename := ".rosinstall" }

/-- C2 counterexample: an init invocation whose install pass fails
(installSuccess = false, and the install effect was dispatched) still
returns exit code 0 — the source prints a warning and unconditionally
returns 0 (line 155). -/
theorem init_install_failure_exit_code_zero :
    initEnvB.installSuccess = false ∧
    cmd_init initEnvB { robust := false, jobs := 1 } [] =
      ([InitEffect.getConfig "." [],
        InitEffect.printMsg "Writing ./.rosinstall",
        InitEffect.writeConfig "." ".rosinstall",
        InitEffect.install false 1,
        InitEffect.printMsg initWarnMsg,
        InitEffect.printMsg "\nupdate complete."],
       Except.ok 0) := by
  exact ⟨rfl, rfl⟩

/-- C2 amended: whenever the install pass was dispatched and reported
failure, cmd_init still returns exit code 0; the failure is signaled only
by the printed warning (and the per-element reporting of the install pass),
not by the exit code. -/
theorem init_install_failure_still_returns_zero (env : InitEnv)
    (opts : InitOptions) (args : List String) (r : Bool) (n : Nat)
    (hi : InitEffect.install r n ∈ (cmd_init env opts args).1)
    (hf : env.installSuccess = false) :
    (cmd_init env opts args).2 = Except.ok 0 ∧
    InitEffect.printMsg initWarnMsg ∈ (cmd_init env opts args).1 := by
  by_cases h1 : env.pathExists (pathJoin (init_target_path args) env.configFilename) = true
  · exfalso
    unfold cmd_init at hi
    rw [if_pos h1] at hi
    simp only [List.mem_append] at hi
    rcases hi with hi | hi
    · rcases init_pre_effects_cases env (init_target_path args) _ hi with ⟨p, h⟩ | ⟨m, h⟩ <;> simp at h
    · simp at hi
  · by_cases h2 : args.length > 2
    · exfalso
      unfold cmd_init at hi
      rw [if_neg h1, if_pos h2] at hi
      rcases init_pre_effects_cases env (init_target_path args) _ hi with ⟨p, h⟩ | ⟨m, h⟩ <;> simp at h
    · rcases hq : env.configElements.find? (fun e => !e.is_vcs_element) with _ | el'
      · unfold cmd_init
        rw [if_neg h1, if_neg h2, hq]
        refine ⟨rfl, ?_⟩
        simp only [List.mem_append]
        right
        unfold init_final_effects
        simp [hf]
      · exfalso
        unfold cmd_init at hi
        rw [if_neg h1, if_neg h2, hq] at hi
        rcases init_mid_effects_cases env (init_target_path args) args _ hi with
          ⟨p, h⟩ | ⟨m, h⟩ | h <;> simp at h

/-- Witness for the amended C2 theorem at initEnvB. -/
theorem init_install_failure_still_returns_zero_witness :
    (cmd_init initEnvB { robust := false, jobs := 1 } []).2 = Except.ok 0 ∧
    InitEffect.printMsg initWarnMsg ∈ (cmd_init initEnvB { robust := false, jobs := 1 } []).1 := by
  exact init_install_failure_still_returns_zero initEnvB { robust := false, jobs := 1 } []
    false 1 (by decide) (by decide)

/-- C5: once the config has been assembled (the getConfig effect occurred)
and it contains an element without vcs information, cmd_init raises the
MultiProjectException for the first such element and neither persists the
config nor dispatches any install pass. -/
theorem init_nonvcs_element_blocks_persist (env : InitEnv) (opts : InitOptions)
    (args : List String) (bp : String) (uris : List String)
    (hgc : InitEffect.getConfig bp uris ∈ (cmd_init env opts args).1)
    (el : InitElement) (he : el ∈ env.configElements)
    (hv : el.is_vcs_element = false) :
    (∀ b f, InitEffect.writeConfig b f ∉ (cmd_init env opts args).1) ∧
    (∀ r n, InitEffect.install r n ∉ (cmd_init env opts args).1) ∧
    (∃ m, (cmd_init env opts args).2 = Except.error (InitError.multiProjectException m)) := by
  by_cases h1 : env.pathExists (pathJoin (init_target_path args) env.configFilename) = true
  · exfalso
    unfold cmd_init at hgc
    rw [if_pos h1] at hgc
    simp only [List.mem_append] at hgc
    rcases hgc with hgc | hgc
    · rcases init_pre_effects_cases env (init_target_path args) _ hgc with ⟨p, h⟩ | ⟨m, h⟩ <;> simp at h
    · simp at hgc
  · by_cases h2 : args.length > 2
    · exfalso
      unfold cmd_init at hgc
      rw [if_neg h1, if_pos h2] at hgc
      rcases init_pre_effects_cases env (init_target_path args) _ hgc with ⟨p, h⟩ | ⟨m, h⟩ <;> simp at h
    · rcases hq : env.configElements.find? (fun e => !e.is_vcs_element) with _ | el'
      · exfalso
        have := List.find?_eq_none.mp hq el he
        simp [hv] at this
      · unfold cmd_init
        rw [if_neg h1, if_neg h2, hq]
        refine ⟨?_, ?_, ⟨initNonVcsMsg el', rfl⟩⟩
        · intro b f hmem
          rcases init_mid_effects_cases env (init_target_path args) args _ hmem with
            ⟨p, h⟩ | ⟨m, h⟩ | h <;> simp at h
        · intro r n hmem
          rcases init_mid_effects_cases env (init_target_path args) args _ hmem with
            ⟨p, h⟩ | ⟨m, h⟩ | h <;> simp at h

/-- Environment whose assembled config contains a non-VCS element. -/
def initEnvC : InitEnv :=
  { isdir := fun _ => true, pathExists := fun _ => false,
    configElements := [{ is_vcs_element := false, description := "other entry" }],
    configBasePath := ".", installSuccess := true,
    configFilename := ".rosinstall" }

/-- Witness for C5 at initEnvC: the config was assembled, contains a
non-VCS element, and no persistence or install effect occurs. -/
theorem init_nonvcs_element_blocks_persist_witness :
    InitEffect.writeConfig "." ".rosinstall" ∉
      (cmd_init initEnvC { robust := false, jobs := 1 } []).1 ∧
    InitEffect.install false 1 ∉
      (cmd_init initEnvC { robust := false, jobs := 1 } []).1 := by
  have h := init_nonvcs_element_blocks_persist initEnvC { robust := false, jobs := 1 } []
    "." [] (by decide) { is_vcs_element := false, description := "other entry" }
    (by decide) (by decide)
  exact ⟨h.1 "." ".rosinstall", h.2.1 false 1⟩

/-- C6: when the target path already contains a workspace config file of
the configured name, cmd_init prints an error and returns 1, without
assembling a config, writing one, or dispatching any install pass. -/
theorem init_existing_config_aborts (env : InitEnv) (opts : InitOptions)
    (args : List String)
    (h : env.pathExists (pathJoin (init_target_path args) env.configFilename) = true) :
    (cmd_init env opts args).2 = Except.ok 1 ∧
    (∀ b f, InitEffect.writeConfig b f ∉ (cmd_init env opts args).1) ∧
    (∀ r n, InitEffect.install r n ∉ (cmd_init env opts args).1) ∧
    (∀ b us, InitEffect.getConfig b us ∉ (cmd_init env opts args).1) := by
  unfold cmd_init
  rw [if_pos h]
  refine ⟨rfl, ?_, ?_, ?_⟩ <;>
    · intro a b hmem
      simp only [List.mem_append] at hmem
      rcases hmem with hmem | hmem
      · rcases init_pre_effects_cases env (init_target_path args) _ hmem with ⟨p, hh⟩ | ⟨m, hh⟩ <;> simp at hh
      · simp at hmem

/-- Environment in which a config file already exists everywhere. -/
def initEnvD : InitEnv :=
  { isdir := fun _ => true, pathExists := fun _ => true,
    configElements := [], configBasePath := ".", installSuccess := true,
    configFilename := ".rosinstall" }

/-- Witness for C6 at initEnvD. -/
theorem init_existing_config_aborts_witness :
    (cmd_init initEnvD { robust := false, jobs := 1 } []).2 = Except.ok 1 ∧
    InitEffect.writeConfig "." ".rosinstall" ∉
      (cmd_init initEnvD { robust := false, jobs := 1 } []).1 ∧
    InitEffect.install false 1 ∉
      (cmd_init initEnvD { robust := false, jobs := 1 } []).1 ∧
    InitEffect.getConfig "." [] ∉
      (cmd_init initEnvD { robust := false, jobs := 1 } []).1 := by
  have h := init_existing_config_aborts initEnvD { robust := false, jobs := 1 } [] (by decide)
  exact ⟨h.1, h.2.1 "." ".rosinstall", h.2.2.1 false 1, h.2.2.2 "." []⟩

/-- Environment with a completely empty filesystem, for the C7
counterexample. -/
def initEnvE : InitEnv :=
  { isdir := fun _ => false, pathExists := fun _ => false,
    configElements := [], configBasePath := "p", installSuccess := true,
    configFilename := ".rosinstall" }

/-- C7 counterexample: an init invocation with three positional arguments
whose target does not exist creates the target directory (a side effect)
before the Too many arguments usage error is raised — refuting that no
side effects are attempted on an invalid invocation. -/
theorem init_usage_error_after_mkdir :
    cmd_init initEnvE { robust := false, jobs := 1 } ["p", "a", "b"] =
      ([InitEffect.mkdir "p"], Except.error (InitError.usageError "Too many arguments")) ∧
    InitEffect.mkdir "p" ∈ (cmd_init initEnvE { robust := false, jobs := 1 } ["p", "a", "b"]).1 := by
  exact ⟨rfl, by decide⟩

/-- C7 amended: with more than two positional arguments, cmd_init raises
the Too many arguments usage error (or, when a config file already exists
at the target, returns 1 even earlier), and in either case never assembles
a config, writes one, or dispatches an install pass — though the target
directory may already have been created by the directory-preparation step
that precedes the argument-count check. -/
theorem init_too_many_args_no_persist (env : InitEnv) (opts : InitOptions)
    (args : List String) (h : args.length > 2) :
    ((cmd_init env opts args).2 = Except.error (InitError.usageError "Too many arguments") ∨
      (cmd_init env opts args).2 = Except.ok 1) ∧
    (∀ b f, InitEffect.writeConfig b f ∉ (cmd_init env opts args).1) ∧
    (∀ r n, InitEffect.install r n ∉ (cmd_init env opts args).1) ∧
    (∀ b us, InitEffect.getConfig b us ∉ (cmd_init env opts args).1) := by
  unfold cmd_init
  by_cases h1 : env.pathExists (pathJoin (init_target_path args) env.configFilename) = true
  · rw [if_pos h1]
    refine ⟨Or.inr rfl, ?_, ?_, ?_⟩ <;>
      · intro a b hmem
        simp only [List.mem_append] at hmem
        rcases hmem with hmem | hmem
        · rcases init_pre_effects_cases env (init_target_path args) _ hmem with ⟨p, hh⟩ | ⟨m, hh⟩ <;> simp at hh
        · simp at hmem
  · rw [if_neg h1, if_pos h]
    refine ⟨Or.inl rfl, ?_, ?_, ?_⟩ <;>
      · intro a b hmem
        rcases init_pre_effects_cases env (init_target_path args) _ hmem with ⟨p, hh⟩ | ⟨m, hh⟩ <;> simp at hh

/-- Witness for the amended C7 theorem at initEnvE. -/
theorem init_too_many_args_no_persist_witness :
    ((cmd_init initEnvE { robust := false, jobs := 1 } ["p", "a", "b"]).2 =
        Except.error (InitError.usageError "Too many arguments") ∨
      (cmd_init initEnvE { robust := false, jobs := 1 } ["p", "a", "b"]).2 = Except.ok 1) ∧
    InitEffect.writeConfig "p" ".rosinstall" ∉
      (cmd_init initEnvE { robust := false, jobs := 1 } ["p", "a", "b"]).1 := by
  have h := init_too_many_args_no_persist initEnvE { robust := false, jobs := 1 }
    ["p", "a", "b"] (by decide)
  exact ⟨h.1, h.2.1 "p" ".rosinstall"⟩

/-- Every valid --only attribute contributes exactly one value to the
projection row: the chain of independent if statements in the loop body
appends once for each of the eight valid names. -/
lemma attrOutput_length_of_valid (spec : PathSpec) (a : String)
    (h : a ∈ only_option_valid_attrs) : (attrOutput spec a).length = 1 := by
  fin_cases h <;> rfl

/-- A valid --only attribute whose spec field is absent is rendered as the
empty string (the `x or ""` idiom), never omitted. -/
lemma attrOutput_none_of_valid (spec : PathSpec) (a : String)
    (h : a ∈ only_option_valid_attrs) (hn : specField spec a = none) :
    attrOutput spec a = [""] := by
  fin_cases h
  · have h2 : spec.path = none := hn
    show [spec.path.getD ""] = [""]
    rw [h2]
    rfl
  · have h2 : spec.local_name = none := hn
    show [spec.local_name.getD ""] = [""]
    rw [h2]
    rfl
  · have h2 : spec.version = none := hn
    show [spec.version.getD ""] = [""]
    rw [h2]
    rfl
  · have h2 : spec.revision = none := hn
    show [spec.revision.getD ""] = [""]
    rw [h2]
    rfl
  · have h2 : spec.current_revision = none := hn
    show [spec.current_revision.getD ""] = [""]
    rw [h2]
    rfl
  · have h2 : spec.uri = none := hn
    show [spec.uri.getD ""] = [""]
    rw [h2]
    rfl
  · have h2 : spec.curr_uri = none := hn
    show [spec.curr_uri.getD ""] = [""]
    rw [h2]
    rfl
  · have h2 : spec.scmtype = none := hn
    show [spec.scmtype.getD ""] = [""]
    rw [h2]
    rfl

/-- The projection row built from valid attributes has exactly one entry
per requested attribute. -/
lemma projectionRow_length (spec : PathSpec) (attrs : List String)
    (h : ∀ a ∈ attrs, a ∈ only_option_valid_attrs) :
    (projectionRow spec attrs).length = attrs.length := by
  induction attrs with
  | nil => rfl
  | cons a as ih =>
    have ha : a ∈ only_option_valid_attrs := h a (by simp)
    have has : ∀ x ∈ as, x ∈ only_option_valid_attrs := fun x hx => h x (by simp [hx])
    simp only [projectionRow, List.flatMap_cons, List.length_append, List.length_cons]
    rw [attrOutput_length_of_valid spec a ha]
    have := ih has
    simp only [projectionRow] at this
    omega

/-- C9: for a valid --only request, the row of values built for an element
has exactly one comma-separated field per requested attribute (the field
count equals the number of requested attributes), and an attribute whose
value is absent is rendered as the empty string rather than omitted. -/
theorem info_only_row_field_count (spec : PathSpec) (attrs : List String)
    (h : ∀ a ∈ attrs, a ∈ only_option_valid_attrs) :
    (projectionRow spec attrs).length = attrs.length ∧
    ∀ a ∈ attrs, specField spec a = none → attrOutput spec a = [""] := by
  refine ⟨projectionRow_length spec attrs h, ?_⟩
  intro a ha hn
  exact attrOutput_none_of_valid spec a (h a ha) hn

/-- A spec with no declared version, for the C9 witness. -/
def specNoVersion : PathSpec :=
  { local_name := some "a", path := some "/ws/a", scmtype := some "git",
    uri := some "u", version := none, revision := none,
    curr_uri := none, current_revision := none }

/-- Witness for C9 at a concrete spec and attribute list: two requested
attributes give a row of two fields, and the absent version is rendered as
the empty string. -/
theorem info_only_row_field_count_witness :
    (projectionRow specNoVersion ["localname", "version"]).length = 2 ∧
    attrOutput specNoVersion "version" = [""] := by
  have h := info_only_row_field_count specNoVersion ["localname", "version"] (by decide)
  exact ⟨h.1, h.2 "version" (by decide) (by decide)⟩

/-- The command table of wstool_main for which no target workspace is
inferred (line 334). -/
def commands_list : List String := ["init"]

/-- The base workspace-command table of wstool_main (lines 336-343). -/
def base_ws_commands : List String :=
  ["info", "remove", "set", "merge", "diff", "status", "update"]

/-- Modelled from the spec: the alias table __MULTIPRO_CMD_ALIASES__ lives
in rosinstall.multiproject_cli, not in this repository.  wstool_main
extends the workspace-command table with the alias of every base command
that has one (lines 344-346); the table is a parameter here. -/
def ws_command_names (aliases : List (String × String)) : List String :=
  base_ws_commands ++ base_ws_commands.filterMap (fun l => aliases.lookup l)

/-- Embedding of Python str.startswith for the one-character prefix used in
wstool_main (line 353). -/
def startsWithDash (command : String) : Bool :=
  match command.data with
  | [] => false
  | c :: _ => c = '-'

/-- Outcome of the command-resolution step of wstool_main: either dispatch
a command with its argument list, or print an error message and return
exit code 1. -/
inductive DispatchOutcome where
  | runCommand (command : String) (args : List String)
  | errorExit (msg : String) (code : Nat)
  deriving DecidableEq, Repr

/-- Shallow embedding of the command-resolution step of wstool_main
(wstool_cli.py lines 348-358): a first word that is a known command (or
alias) is dispatched as is; an unknown word naming an existing filesystem
path is rewritten to the info command with that path as target workspace;
otherwise an error message is printed (one wording for words starting with
a dash, another for the rest), usage is shown, and the call returns 1. -/
def resolve_command (pathExists : String → Bool) (aliases : List (String × String))
    (command : String) (args : List String) : DispatchOutcome :=
  if command ∈ commands_list ∨ command ∈ ws_command_names aliases then
    DispatchOutcome.runCommand command args
  else if pathExists command = true then
    DispatchOutcome.runCommand "info" (["-t", command] ++ args)
  else
    DispatchOutcome.errorExit
      (if startsWithDash command then "First argument must be name of a command: " ++ command
       else "Error: unknown command: " ++ command) 1

/-- C10: for a command word that is neither a recognized command nor an
alias, wstool_main rewrites the invocation to the info command targeting
the word when it names an existing filesystem path, and otherwise prints an
error message and returns 1. -/
theorem main_unknown_command_fallback (pathExists : String → Bool)
    (aliases : List (String × String)) (command : String) (args : List String)
    (h1 : command ∉ commands_list) (h2 : command ∉ ws_command_names aliases) :
    (pathExists command = true →
      resolve_command pathExists aliases command args =
        DispatchOutcome.runCommand "info" (["-t", command] ++ args)) ∧
    (pathExists command = false →
      resolve_command pathExists aliases command args =
        DispatchOutcome.errorExit
          (if startsWithDash command then "First argument must be name of a command: " ++ command
           else "Error: unknown command: " ++ command) 1) := by
  have hc : ¬(command ∈ commands_list ∨ command ∈ ws_command_names aliases) := by
    intro h
    rcases h with h | h
    · exact h1 h
    · exact h2 h
  constructor
  · intro hp
    unfold resolve_command
    rw [if_neg hc, if_pos hp]
  · intro hp
    unfold resolve_command
    rw [if_neg hc, if_neg (by simp [hp])]

/-- A filesystem in which only /tmp/ws exists, for the C10 witness. -/
def peW : String → Bool := fun p => p == "/tmp/ws"

/-- Witness for C10: the existing path /tmp/ws is rewritten to an info
invocation targeting it; the unknown word bogus yields the error exit 1. -/
theorem main_unknown_command_fallback_witness :
    resolve_command peW [] "/tmp/ws" ["geometry"] =
      DispatchOutcome.runCommand "info" ["-t", "/tmp/ws", "geometry"] ∧
    resolve_command peW [] "bogus" [] =
      DispatchOutcome.errorExit "Error: unknown command: bogus" 1 := by
  constructor
  · have h := (main_unknown_command_fallback peW [] "/tmp/ws" ["geometry"]
      (by decide) (by decide)).1 (by decide)
    exact h.trans (by decide)
  · have h := (main_unknown_command_fallback peW [] "bogus" []
      (by decide) (by decide)).2 (by decide)
    exact h.trans (by decide)

end Wstool
